import Mathlib

/-!
Verification of the competitive-summary service (`src/main.py`).

The repository is a single FastAPI application exposing
`POST /analyze/{brand_name}`.  The handler reads competitor rows from a
`competitors` table, builds a natural-language prompt, calls an external
structured-completion service, upserts the result into a
`competitor_summary` table and returns the analysis.

The embedding below models:
  * Python dict rows (`Row`) with possibly-`None` values (`PyVal`);
  * the two database tables as an explicit `Store`;
  * the external collaborators (the Supabase client calls and the LLM
    completion) as an `Env` that can inject failures (a raised exception,
    carried as a message string) at each call site;
  * Python exceptions as `Exn`: either a FastAPI `HTTPException`
    (status code plus detail; `str(e)` renders as "status: detail",
    as in starlette) or a plain exception with a message;
  * the handler's try/except as an explicit match on the body result.
-/

/-- A Python value stored in a competitor row: `None` or a string.
`pyStr` is Python `str()` applied to it, as an f-string does. -/
inductive PyVal where
  | none
  | str (s : String)
deriving DecidableEq, Repr

def pyStr : PyVal → String
  | PyVal.none => "None"
  | PyVal.str s => s

/-- A Python dict row, as returned by the Supabase select: association
list from column name to value. -/
abbrev Row := List (String × PyVal)

/-- `comp.get(key, 'N/A')` followed by f-string rendering: the default
`"N/A"` is used only when the key is absent; a present `None` value
renders as `"None"`. -/
def dictGet (comp : Row) (key : String) : String :=
  match List.lookup key comp with
  | some v => pyStr v
  | Option.none => "N/A"

/-- The `CompetitiveLandscape` pydantic model: the two-field schema the
completion service is asked to fill. -/
structure CompetitiveLandscape where
  competitive_summary : String
  gaps_opportunities : String
deriving DecidableEq, Repr

/-- A persisted row of the `competitor_summary` table. -/
structure SummaryRow where
  id : Nat
  brand_name : String
  competitive_summary : String
  gaps_opportunities : String
deriving DecidableEq, Repr

/-- The external data store: the `competitors` table (each row tagged with
its `brand_name` key and carrying the nine selected columns) and the
`competitor_summary` table.  `nextId` models the store assigning ids to
inserted rows. -/
structure Store where
  competitors : List (String × Row)
  summaries : List SummaryRow
  nextId : Nat
deriving DecidableEq, Repr

/-- One request's external world: the store, a possible injected failure
(exception message) for each of the three Supabase calls the request makes,
and the completion service as an oracle from the prompt text. -/
structure Env where
  db : Store
  selectCompetitorsFail : Option String
  selectSummaryFail : Option String
  writeSummaryFail : Option String
  llm : String → Except String CompetitiveLandscape

/-- A Python exception as observed by the handler's `except` clause:
either a FastAPI `HTTPException` or any other exception carrying its
message. -/
inductive Exn where
  | http (status : Nat) (detail : String)
  | err (msg : String)
deriving DecidableEq, Repr

/-- Python `str(e)`: starlette's `HTTPException.__str__` renders
`"{status_code}: {detail}"`; for a plain exception it is the message. -/
def Exn.message : Exn → String
  | Exn.http s d => toString s ++ ": " ++ d
  | Exn.err m => m

/-- The JSON body of a response: either the 200 `CompetitiveLandscapeResponse`
(exactly `brand_name`, `competitive_summary`, `gaps_opportunities`) or an
error body `{"detail": ...}`. -/
inductive ResponseBody where
  | json (brand_name competitive_summary gaps_opportunities : String)
  | detail (d : String)
deriving DecidableEq, Repr

structure HTTPResponse where
  status : Nat
  body : ResponseBody
deriving DecidableEq, Repr

/-- `get_competitors_data`: select the nine columns from `competitors`
filtered by `brand_name` equality.  Returns the rows in table order
(the filter preserves order); raises if the store call fails. -/
def get_competitors_data (env : Env) (brand_name : String) :
    Except Exn (List Row) :=
  match env.selectCompetitorsFail with
  | some m => Except.error (Exn.err m)
  | Option.none =>
      Except.ok (((env.db.competitors.filter (fun r => r.1 == brand_name))).map (·.2))

/-- One competitor's block of the prompt, exactly the f-string appended per
iteration in `analyze_competitive_landscape` (note the 8-space indentation of
the triple-quoted literal and the trailing `---` delimiter line). -/
def competitorBlock (comp : Row) : String :=
  "\n        " ++ "Competitor: " ++ dictGet comp "competitor_name" ++
  "\n        " ++ "Program Summary: " ++ dictGet comp "program_summary" ++
  "\n        " ++ "Market Position: " ++ dictGet comp "competitor_positioning" ++
  "\n        " ++ "Rewards & Benefits: " ++ dictGet comp "competitor_rewards_benefits" ++
  "\n        " ++ "User Feedback: " ++ dictGet comp "competitor_user_feedback" ++
  "\n        " ++ "Strengths: " ++ dictGet comp "competitor_strength" ++
  "\n        " ++ "Weaknesses: " ++ dictGet comp "competitor_weakness" ++
  "\n        " ++ "Opportunities: " ++ dictGet comp "competitor_opportunity" ++
  "\n        " ++ "Threats: " ++ dictGet comp "competitor_threats" ++
  "\n        " ++ "---" ++ "\n        "

/-- `competitors_overview`: the loop
`competitors_overview += f"""..."""` starting from `""`. -/
def build_overview (competitors_data : List Row) : String :=
  competitors_data.foldl (fun acc comp => acc ++ competitorBlock comp) ""

/-- The user prompt assembled in `analyze_competitive_landscape`. -/
def analysis_prompt (brand_name : String) (competitors_data : List Row) : String :=
  "Analyze this competitive landscape data for " ++ brand_name ++
  "\x27s market:\n\n    " ++ build_overview competitors_data ++
  "\n\n    Create two comprehensive analyses:\n" ++
  "    1. A summary of the competitive loyalty landscape using the data about the competitors loyalty programs.\n" ++
  "    2. Specific gaps and opportunities that " ++ brand_name ++
  " could exploit when designing their loyalty program, be very specific and reference specific examples from the competitor data.\n\n" ++
  "    Consider:\n    - Common strengths and weaknesses across competitors\n" ++
  "    - Unmet customer needs\n    - Market gaps\n    - Innovative opportunities\n" ++
  "    - Potential differentiation strategies"

/-- `analyze_competitive_landscape`: build the prompt and call the
structured-completion service; a failure of the external call propagates
as an exception. -/
def analyze_competitive_landscape (env : Env) (brand_name : String)
    (competitors_data : List Row) : Except Exn CompetitiveLandscape :=
  match env.llm (analysis_prompt brand_name competitors_data) with
  | Except.error m => Except.error (Exn.err m)
  | Except.ok a => Except.ok a

/-- The effect of
`update({'competitive_summary': ..., 'gaps_opportunities': ...}).eq('brand_name', brand)`:
every row whose `brand_name` matches has exactly those two columns
overwritten; all other rows and columns are untouched. -/
def updatedSummaries (summaries : List SummaryRow) (brand_name : String)
    (analysis : CompetitiveLandscape) : List SummaryRow :=
  summaries.map (fun r =>
    if r.brand_name == brand_name then
      { r with competitive_summary := analysis.competitive_summary,
               gaps_opportunities := analysis.gaps_opportunities }
    else r)

/-- `save_landscape_analysis`: select existing summary rows by
`brand_name`; if any exist, update their two text fields, else insert a
new row with `brand_name` plus the two fields.  Returns
`response.data[0]` together with the new store state.  The function's
try/except logs and re-raises, so every underlying store failure
propagates unchanged. -/
def save_landscape_analysis (env : Env) (brand_name : String)
    (analysis : CompetitiveLandscape) : Except Exn (Store × SummaryRow) :=
  match env.selectSummaryFail with
  | some m => Except.error (Exn.err m)
  | Option.none =>
      let existing := env.db.summaries.filter (fun r => r.brand_name == brand_name)
      match env.writeSummaryFail with
      | some m => Except.error (Exn.err m)
      | Option.none =>
          if existing.isEmpty then
            let newRow : SummaryRow :=
              { id := env.db.nextId, brand_name := brand_name,
                competitive_summary := analysis.competitive_summary,
                gaps_opportunities := analysis.gaps_opportunities }
            let newStore : Store :=
              { env.db with
                summaries := env.db.summaries ++ [newRow]
                nextId := env.db.nextId + 1 }
            Except.ok (newStore, newRow)
          else
            let newStore : Store :=
              { env.db with
                summaries := updatedSummaries env.db.summaries brand_name analysis }
            match newStore.summaries.filter (fun r => r.brand_name == brand_name) with
            | [] => Except.error (Exn.err "list index out of range")
            | r :: _ => Except.ok (newStore, r)

/-- The body of the `try:` block of `create_analysis`: fetch, 404 check,
analyze, save.  The raised `HTTPException(404)` is an exception like any
other and flows to the handler's `except`. -/
def create_analysis_body (env : Env) (brand_name : String) :
    Except Exn (Store × CompetitiveLandscape) :=
  match get_competitors_data env brand_name with
  | Except.error e => Except.error e
  | Except.ok competitors_data =>
      if competitors_data.isEmpty then
        Except.error (Exn.http 404 "No competitor data found")
      else
        match analyze_competitive_landscape env brand_name competitors_data with
        | Except.error e => Except.error e
        | Except.ok analysis =>
            match save_landscape_analysis env brand_name analysis with
            | Except.error e => Except.error e
            | Except.ok saved => Except.ok (saved.1, analysis)

/-- `POST /analyze/{brand_name}`: on success, a 200 with the
`CompetitiveLandscapeResponse` built from `analysis`; on ANY exception
(the blanket `except Exception as e:` — which also catches the
`HTTPException(404)` raised inside the `try`), a
`HTTPException(status_code=500, detail=str(e))`.  The second component is
the store after the request (unchanged on every error path, since the
only write happens inside `save_landscape_analysis`). -/
def create_analysis (env : Env) (brand_name : String) : HTTPResponse × Store :=
  match create_analysis_body env brand_name with
  | Except.ok (st, analysis) =>
      ({ status := 200,
         body := ResponseBody.json brand_name analysis.competitive_summary
                   analysis.gaps_opportunities }, st)
  | Except.error e =>
      ({ status := 500, body := ResponseBody.detail e.message }, env.db)

/-- Number of summary rows stored for a brand. -/
def countBrand (summaries : List SummaryRow) (brand_name : String) : Nat :=
  (summaries.filter (fun r => r.brand_name == brand_name)).length

/-- Substring containment, used to state what the generated prompt text
contains. -/
def ContainsStr (s t : String) : Prop :=
  ∃ pre post, s = pre ++ (t ++ post)

/-- The nine labeled fields of a competitor block, in prompt order:
display label paired with the dict key read by `comp.get(key, 'N/A')`. -/
def promptFields : List (String × String) :=
  [("Competitor", "competitor_name"), ("Program Summary", "program_summary"),
   ("Market Position", "competitor_positioning"),
   ("Rewards & Benefits", "competitor_rewards_benefits"),
   ("User Feedback", "competitor_user_feedback"),
   ("Strengths", "competitor_strength"), ("Weaknesses", "competitor_weakness"),
   ("Opportunities", "competitor_opportunity"), ("Threats", "competitor_threats")]

/-! ### Concrete environments used as inputs below -/

/-- A store holding one competitor row for brand "Other" and nothing for
"Acme"; all external calls succeed; the LLM is never consulted. -/
def env404 : Env :=
  { db := { competitors := [("Other", [("competitor_name", PyVal.str "Rival")])],
            summaries := [], nextId := 1 },
    selectCompetitorsFail := Option.none,
    selectSummaryFail := Option.none,
    writeSummaryFail := Option.none,
    llm := fun _ => Except.error "unreached" }

def envC2 : Env :=
  { db := { competitors := [("Acme", [("competitor_name", PyVal.str "Rival")])],
            summaries := [], nextId := 1 },
    selectCompetitorsFail := Option.none,
    selectSummaryFail := Option.none,
    writeSummaryFail := Option.none,
    llm := fun _ => Except.error "LLM call failed" }

def envC5 : Env :=
  { db := { competitors := [("Acme", [("competitor_name", PyVal.str "Rival")])],
            summaries := [], nextId := 1 },
    selectCompetitorsFail := Option.none,
    selectSummaryFail := Option.none,
    writeSummaryFail := Option.none,
    llm := fun _ => Except.ok { competitive_summary := "summary text",
                                gaps_opportunities := "gaps text" } }

def envC3a : Env :=
  { db := { competitors := [("Acme", [("competitor_name", PyVal.str "Rival")])],
            summaries := [], nextId := 1 },
    selectCompetitorsFail := Option.none,
    selectSummaryFail := Option.none,
    writeSummaryFail := Option.none,
    llm := fun _ => Except.ok { competitive_summary := "first summary",
                                gaps_opportunities := "first gaps" } }

def envC3b : Env :=
  { db := (create_analysis envC3a "Acme").2,
    selectCompetitorsFail := Option.none,
    selectSummaryFail := Option.none,
    writeSummaryFail := Option.none,
    llm := fun _ => Except.ok { competitive_summary := "second summary",
                                gaps_opportunities := "second gaps" } }

def envC8 : Env :=
  { db := { competitors := [], summaries := [], nextId := 1 },
    selectCompetitorsFail := some "connection refused",
    selectSummaryFail := Option.none,
    writeSummaryFail := Option.none,
    llm := fun _ => Except.error "unreached" }

def envC4 : Env :=
  { db := { competitors := [],
            summaries := [{ id := 7, brand_name := "Acme",
                            competitive_summary := "old summary",
                            gaps_opportunities := "old gaps" }],
            nextId := 8 },
    selectCompetitorsFail := Option.none,
    selectSummaryFail := Option.none,
    writeSummaryFail := Option.none,
    llm := fun _ => Except.error "unreached" }

/-! ### Helper lemmas -/

theorem contains_append_left (s t u : String) (h : ContainsStr t u) :
    ContainsStr (s ++ t) u := by
  obtain ⟨pre, post, rfl⟩ := h
  exact ⟨s ++ pre, post, by rw [String.append_assoc]⟩

theorem containsStr_at (lab v post : String) :
    ContainsStr (lab ++ (v ++ post)) (lab ++ v) :=
  ⟨"", post, by simp [String.append_assoc]⟩

theorem updFn_brand (brand : String) (a : CompetitiveLandscape) (r : SummaryRow) :
    ((if r.brand_name == brand then
      { r with competitive_summary := a.competitive_summary,
               gaps_opportunities := a.gaps_opportunities }
    else r) : SummaryRow).brand_name = r.brand_name := by
  split <;> rfl

theorem filter_updatedSummaries (l : List SummaryRow) (brand : String)
    (a : CompetitiveLandscape) :
    (updatedSummaries l brand a).filter (fun r => r.brand_name == brand) =
      (l.filter (fun r => r.brand_name == brand)).map (fun r =>
        if r.brand_name == brand then
          { r with competitive_summary := a.competitive_summary,
                   gaps_opportunities := a.gaps_opportunities }
        else r) := by
  unfold updatedSummaries
  rw [List.filter_map]
  congr 1
  apply List.filter_congr
  intro r _
  simp only [Function.comp]
  rw [updFn_brand]

/-- On the insert path (no existing row), the saved store appends exactly
one new summary row. -/
theorem save_insert (env : Env) (brand : String) (a : CompetitiveLandscape)
    (h5 : env.selectSummaryFail = Option.none)
    (h6 : env.writeSummaryFail = Option.none)
    (h0 : env.db.summaries.filter (fun r => r.brand_name == brand) = []) :
    save_landscape_analysis env brand a =
      Except.ok ({ env.db with
          summaries := env.db.summaries ++
            [{ id := env.db.nextId, brand_name := brand,
               competitive_summary := a.competitive_summary,
               gaps_opportunities := a.gaps_opportunities }],
          nextId := env.db.nextId + 1 },
        { id := env.db.nextId, brand_name := brand,
          competitive_summary := a.competitive_summary,
          gaps_opportunities := a.gaps_opportunities }) := by
  simp [save_landscape_analysis, h5, h6, h0]

/-- On the update path (an existing row), the saved store maps the update
over the summaries, and the returned row is the first updated one. -/
theorem save_update (env : Env) (brand : String) (a : CompetitiveLandscape)
    (h5 : env.selectSummaryFail = Option.none)
    (h6 : env.writeSummaryFail = Option.none)
    (r0 : SummaryRow) (rest : List SummaryRow)
    (h0 : env.db.summaries.filter (fun r => r.brand_name == brand) = r0 :: rest) :
    save_landscape_analysis env brand a =
      Except.ok ({ env.db with
          summaries := updatedSummaries env.db.summaries brand a },
        { r0 with competitive_summary := a.competitive_summary,
                  gaps_opportunities := a.gaps_opportunities }) := by
  have hne : ¬(env.db.summaries.filter (fun r => r.brand_name == brand)).isEmpty := by
    rw [h0]; simp
  have hfu := filter_updatedSummaries env.db.summaries brand a
  rw [h0] at hfu
  have hr0 : r0.brand_name = brand := by
    have := List.mem_filter.mp (h0 ▸ List.mem_cons_self r0 rest)
    exact beq_iff_eq.mp this.2
  simp [save_landscape_analysis, h5, h6, hne, hfu, hr0]

/-- The full success path of one request: fetch succeeds with a nonempty
list, the completion call parses, and both summary-store calls succeed.
The response is the 200 built from the analysis, the competitors table is
untouched, the brand ends with `max 1 (previous count)` summary rows, and
every summary row for the brand carries the new analysis text. -/
theorem create_analysis_success (env : Env) (brand : String) (l : List Row)
    (a : CompetitiveLandscape)
    (h1 : env.selectCompetitorsFail = Option.none)
    (h2 : (env.db.competitors.filter (fun r => r.1 == brand)).map (·.2) = l)
    (h3 : l ≠ [])
    (h4 : env.llm (analysis_prompt brand l) = Except.ok a)
    (h5 : env.selectSummaryFail = Option.none)
    (h6 : env.writeSummaryFail = Option.none) :
    ∃ st, create_analysis env brand =
      ({ status := 200,
         body := ResponseBody.json brand a.competitive_summary a.gaps_opportunities },
        st) ∧
      st.competitors = env.db.competitors ∧
      countBrand st.summaries brand = max 1 (countBrand env.db.summaries brand) ∧
      ∀ r ∈ st.summaries.filter (fun r => r.brand_name == brand),
        r.competitive_summary = a.competitive_summary ∧
        r.gaps_opportunities = a.gaps_opportunities := by
  have hfetch : get_competitors_data env brand = Except.ok l := by
    simp [get_competitors_data, h1, h2]
  have hemp : l.isEmpty = false := by
    cases l with
    | nil => exact absurd rfl h3
    | cons x xs => rfl
  have hana : analyze_competitive_landscape env brand l = Except.ok a := by
    simp [analyze_competitive_landscape, h4]
  rcases hfil : env.db.summaries.filter (fun r => r.brand_name == brand) with _ | ⟨r0, rest⟩
  · -- insert path
    have hsave := save_insert env brand a h5 h6 hfil
    have hrun : create_analysis env brand =
        ({ status := 200,
           body := ResponseBody.json brand a.competitive_summary a.gaps_opportunities },
         { env.db with
           summaries := env.db.summaries ++
             [{ id := env.db.nextId, brand_name := brand,
                competitive_summary := a.competitive_summary,
                gaps_opportunities := a.gaps_opportunities }]
           nextId := env.db.nextId + 1 }) := by
      simp [create_analysis, create_analysis_body, hfetch, hemp, hana, hsave]
    refine ⟨_, hrun, rfl, ?_, ?_⟩
    · simp [countBrand, List.filter_append, hfil]
    · intro r hr
      simp only [List.filter_append, hfil, List.nil_append] at hr
      simp at hr
      subst hr
      simp
  · -- update path
    have hsave := save_update env brand a h5 h6 r0 rest hfil
    have hfu := filter_updatedSummaries env.db.summaries brand a
    rw [hfil] at hfu
    have hrun : create_analysis env brand =
        ({ status := 200,
           body := ResponseBody.json brand a.competitive_summary a.gaps_opportunities },
         { env.db with
           summaries := updatedSummaries env.db.summaries brand a }) := by
      simp [create_analysis, create_analysis_body, hfetch, hemp, hana, hsave]
    refine ⟨_, hrun, rfl, ?_, ?_⟩
    · simp only [countBrand, hfu, hfil, List.length_map, List.length_cons]
      omega
    · intro r hr
      rw [show ({ env.db with
            summaries := updatedSummaries env.db.summaries brand a } : Store).summaries =
          updatedSummaries env.db.summaries brand a from rfl, hfu] at hr
      obtain ⟨r2, hr2, rfl⟩ := List.mem_map.mp hr
      have hmem2 : r2 ∈ env.db.summaries.filter (fun r => r.brand_name == brand) := by
        rw [hfil]; exact hr2
      have hb : r2.brand_name == brand := (List.mem_filter.mp hmem2).2
      simp [hb]

/-- Shared helper: a failing completion call yields the 500-with-message
response and leaves the store untouched. -/
theorem create_analysis_llm_error (env : Env) (brand : String)
    (l : List Row) (m : String)
    (h1 : env.selectCompetitorsFail = Option.none)
    (h2 : (env.db.competitors.filter (fun r => r.1 == brand)).map (·.2) = l)
    (h3 : l ≠ [])
    (h4 : env.llm (analysis_prompt brand l) = Except.error m) :
    create_analysis env brand =
      ({ status := 500, body := ResponseBody.detail m }, env.db) := by
  have hfetch : get_competitors_data env brand = Except.ok l := by
    simp [get_competitors_data, h1, h2]
  have hemp : l.isEmpty = false := by
    cases l with
    | nil => exact absurd rfl h3
    | cons x xs => rfl
  have hana : analyze_competitive_landscape env brand l =
      Except.error (Exn.err m) := by
    simp [analyze_competitive_landscape, h4]
  simp [create_analysis, create_analysis_body, hfetch, hemp, hana, Exn.message]

/-! ### The claims -/

/-- C1 (code bug): for a brand with zero competitor rows the handler does
NOT respond 404: the `HTTPException(status_code=404)` raised inside the
`try` block is caught by the blanket `except Exception as e` and replaced
by `HTTPException(status_code=500, detail=str(e))`, so the client receives
a 500 whose detail is `"404: No competitor data found"`.  The summary
store is indeed left untouched. -/
theorem c1_empty_fetch_actual_behavior :
    create_analysis env404 "Acme" =
      ({ status := 500,
         body := ResponseBody.detail "404: No competitor data found" },
       env404.db) := by
  rfl

/-- C2: if the completion call raises, the handler returns 500 with the
raised message as detail, and the store is exactly the pre-request store:
no insert and no update happened. -/
theorem c2_llm_failure_500_no_write (env : Env) (brand : String)
    (l : List Row) (m : String)
    (h1 : env.selectCompetitorsFail = Option.none)
    (h2 : (env.db.competitors.filter (fun r => r.1 == brand)).map (·.2) = l)
    (h3 : l ≠ [])
    (h4 : env.llm (analysis_prompt brand l) = Except.error m) :
    create_analysis env brand =
      ({ status := 500, body := ResponseBody.detail m }, env.db) :=
  create_analysis_llm_error env brand l m h1 h2 h3 h4

theorem c2_witness :
    create_analysis envC2 "Acme" =
      ({ status := 500, body := ResponseBody.detail "LLM call failed" },
       envC2.db) :=
  c2_llm_failure_500_no_write envC2 "Acme"
    [[("competitor_name", PyVal.str "Rival")]] "LLM call failed"
    rfl rfl (by decide) rfl

/-- C3: starting from a store holding at most one summary row for the
brand (the documented invariant, maintained by sequential requests),
running the analysis successfully, and then running it again successfully
on the resulting store, leaves exactly one summary row for the brand, and
its two text fields are the ones of the SECOND analysis: the second run
updates in place rather than inserting. -/
theorem c3_reanalysis_keeps_single_row (env1 : Env) (brand : String)
    (l1 : List Row) (a1 : CompetitiveLandscape)
    (env2 : Env) (l2 : List Row) (a2 : CompetitiveLandscape)
    (hcount : countBrand env1.db.summaries brand ≤ 1)
    (h11 : env1.selectCompetitorsFail = Option.none)
    (h12 : (env1.db.competitors.filter (fun r => r.1 == brand)).map (·.2) = l1)
    (h13 : l1 ≠ [])
    (h14 : env1.llm (analysis_prompt brand l1) = Except.ok a1)
    (h15 : env1.selectSummaryFail = Option.none)
    (h16 : env1.writeSummaryFail = Option.none)
    (h2db : env2.db = (create_analysis env1 brand).2)
    (h21 : env2.selectCompetitorsFail = Option.none)
    (h22 : (env2.db.competitors.filter (fun r => r.1 == brand)).map (·.2) = l2)
    (h23 : l2 ≠ [])
    (h24 : env2.llm (analysis_prompt brand l2) = Except.ok a2)
    (h25 : env2.selectSummaryFail = Option.none)
    (h26 : env2.writeSummaryFail = Option.none) :
    (create_analysis env1 brand).1.status = 200 ∧
    (create_analysis env2 brand).1.status = 200 ∧
    countBrand (create_analysis env2 brand).2.summaries brand = 1 ∧
    ∀ r ∈ (create_analysis env2 brand).2.summaries.filter
        (fun r => r.brand_name == brand),
      r.competitive_summary = a2.competitive_summary ∧
      r.gaps_opportunities = a2.gaps_opportunities := by
  obtain ⟨st1, hrun1, _, hcnt1, _⟩ :=
    create_analysis_success env1 brand l1 a1 h11 h12 h13 h14 h15 h16
  have hst1 : env2.db = st1 := by rw [h2db, hrun1]
  obtain ⟨st2, hrun2, _, hcnt2, hfields2⟩ :=
    create_analysis_success env2 brand l2 a2 h21 h22 h23 h24 h25 h26
  have hone : countBrand st1.summaries brand = 1 := by
    rw [hcnt1]; omega
  refine ⟨by rw [hrun1], by rw [hrun2], ?_, ?_⟩
  · rw [hrun2]
    rw [hcnt2, hst1, hone]
    omega
  · rw [hrun2]
    exact hfields2

theorem c3_witness :
    (create_analysis envC3a "Acme").1.status = 200 ∧
    (create_analysis envC3b "Acme").1.status = 200 ∧
    countBrand (create_analysis envC3b "Acme").2.summaries "Acme" = 1 ∧
    ∀ r ∈ (create_analysis envC3b "Acme").2.summaries.filter
        (fun r => r.brand_name == "Acme"),
      r.competitive_summary = "second summary" ∧
      r.gaps_opportunities = "second gaps" :=
  c3_reanalysis_keeps_single_row envC3a "Acme"
    [[("competitor_name", PyVal.str "Rival")]]
    { competitive_summary := "first summary", gaps_opportunities := "first gaps" }
    envC3b
    [[("competitor_name", PyVal.str "Rival")]]
    { competitive_summary := "second summary", gaps_opportunities := "second gaps" }
    (by decide) rfl rfl (by decide) rfl rfl rfl rfl rfl (by decide) (by decide) rfl rfl rfl

/-- C4: the upsert first selects existing summary rows by `brand_name`.
With no existing row it inserts exactly one new row holding `brand_name`
and the two text fields; with an existing row it updates the two text
fields of the matching rows (each updated row keeps its identity and
non-matching rows are untouched); and if the underlying select or write
raises, the error is re-raised unchanged. -/
theorem c4_upsert_checks_then_updates_or_inserts (env : Env) (brand : String)
    (analysis : CompetitiveLandscape) :
    (∀ m, env.selectSummaryFail = some m →
      save_landscape_analysis env brand analysis = Except.error (Exn.err m)) ∧
    (∀ m, env.selectSummaryFail = Option.none →
      env.writeSummaryFail = some m →
      save_landscape_analysis env brand analysis = Except.error (Exn.err m)) ∧
    (env.selectSummaryFail = Option.none →
      env.writeSummaryFail = Option.none →
      env.db.summaries.filter (fun r => r.brand_name == brand) = [] →
      save_landscape_analysis env brand analysis =
        Except.ok ({ env.db with
            summaries := env.db.summaries ++
              [{ id := env.db.nextId, brand_name := brand,
                 competitive_summary := analysis.competitive_summary,
                 gaps_opportunities := analysis.gaps_opportunities }]
            nextId := env.db.nextId + 1 },
          { id := env.db.nextId, brand_name := brand,
            competitive_summary := analysis.competitive_summary,
            gaps_opportunities := analysis.gaps_opportunities })) ∧
    (env.selectSummaryFail = Option.none →
      env.writeSummaryFail = Option.none →
      env.db.summaries.filter (fun r => r.brand_name == brand) ≠ [] →
      ∃ st row, save_landscape_analysis env brand analysis =
          Except.ok (st, row) ∧
        st.competitors = env.db.competitors ∧
        st.nextId = env.db.nextId ∧
        List.Forall₂ (fun old new =>
          new.id = old.id ∧ new.brand_name = old.brand_name ∧
          (old.brand_name ≠ brand → new = old) ∧
          (old.brand_name = brand →
            new.competitive_summary = analysis.competitive_summary ∧
            new.gaps_opportunities = analysis.gaps_opportunities))
          env.db.summaries st.summaries) := by
  refine ⟨?_, ?_, ?_, ?_⟩
  · intro m h5
    simp [save_landscape_analysis, h5]
  · intro m h5 h6
    simp [save_landscape_analysis, h5, h6]
  · intro h5 h6 h0
    exact save_insert env brand analysis h5 h6 h0
  · intro h5 h6 hne
    rcases hfil : env.db.summaries.filter (fun r => r.brand_name == brand) with
      _ | ⟨r0, rest⟩
    · exact absurd hfil hne
    · refine ⟨_, _, save_update env brand analysis h5 h6 r0 rest hfil, rfl, rfl, ?_⟩
      show List.Forall₂ _ env.db.summaries
        (env.db.summaries.map (fun r =>
          if r.brand_name == brand then
            { r with competitive_summary := analysis.competitive_summary,
                     gaps_opportunities := analysis.gaps_opportunities }
          else r))
      rw [List.forall₂_map_right_iff, List.forall₂_same]
      intro r _
      by_cases hb : r.brand_name = brand
      · simp [hb]
      · simp [hb]

theorem c4_witness :
    envC4.db.summaries.filter (fun r => r.brand_name == "Acme") ≠ [] ∧
    ∃ st row, save_landscape_analysis envC4 "Acme"
        { competitive_summary := "new summary",
          gaps_opportunities := "new gaps" } = Except.ok (st, row) ∧
      st.competitors = envC4.db.competitors ∧
      st.nextId = envC4.db.nextId ∧
      List.Forall₂ (fun old new =>
        new.id = old.id ∧ new.brand_name = old.brand_name ∧
        (old.brand_name ≠ "Acme" → new = old) ∧
        (old.brand_name = "Acme" →
          new.competitive_summary = "new summary" ∧
          new.gaps_opportunities = "new gaps"))
        envC4.db.summaries st.summaries :=
  ⟨by decide,
   (c4_upsert_checks_then_updates_or_inserts envC4 "Acme"
     { competitive_summary := "new summary",
       gaps_opportunities := "new gaps" }).2.2.2 rfl rfl (by decide)⟩

/-- C5: when the fetch returns N>0 rows and the analysis and upsert both
succeed, the response is 200 and its body is exactly the triple
`(brand_name, competitive_summary, gaps_opportunities)` taken from the
analysis produced by the completion call, and every summary row persisted
for the brand carries those same two values. -/
theorem c5_success_response_matches_persisted (env : Env) (brand : String)
    (l : List Row) (a : CompetitiveLandscape)
    (h1 : env.selectCompetitorsFail = Option.none)
    (h2 : (env.db.competitors.filter (fun r => r.1 == brand)).map (·.2) = l)
    (h3 : l ≠ [])
    (h4 : env.llm (analysis_prompt brand l) = Except.ok a)
    (h5 : env.selectSummaryFail = Option.none)
    (h6 : env.writeSummaryFail = Option.none) :
    (create_analysis env brand).1 =
      { status := 200,
        body := ResponseBody.json brand a.competitive_summary
                  a.gaps_opportunities } ∧
    ∀ r ∈ (create_analysis env brand).2.summaries.filter
        (fun r => r.brand_name == brand),
      r.competitive_summary = a.competitive_summary ∧
      r.gaps_opportunities = a.gaps_opportunities := by
  obtain ⟨st, hrun, _, _, hfields⟩ :=
    create_analysis_success env brand l a h1 h2 h3 h4 h5 h6
  rw [hrun]
  exact ⟨rfl, hfields⟩

theorem c5_witness :
    (create_analysis envC5 "Acme").1 =
      { status := 200,
        body := ResponseBody.json "Acme" "summary text" "gaps text" } ∧
    ∀ r ∈ (create_analysis envC5 "Acme").2.summaries.filter
        (fun r => r.brand_name == "Acme"),
      r.competitive_summary = "summary text" ∧
      r.gaps_opportunities = "gaps text" :=
  c5_success_response_matches_persisted envC5 "Acme"
    [[("competitor_name", PyVal.str "Rival")]]
    { competitive_summary := "summary text", gaps_opportunities := "gaps text" }
    rfl rfl (by decide) rfl rfl rfl

/-- C6: a competitor row missing `competitor_strength` produces a block
containing the literal `"Strengths: N/A"`; in general, each of the nine
fields missing from a row renders as the `"N/A"` placeholder on its
labeled line. -/
theorem c6_missing_fields_render_na (comp : Row) :
    (List.lookup "competitor_strength" comp = Option.none →
      ContainsStr (competitorBlock comp) "Strengths: N/A") ∧
    ∀ lk ∈ promptFields, List.lookup lk.2 comp = Option.none →
      ContainsStr (competitorBlock comp) (lk.1 ++ ": N/A") := by
  have main : ∀ lk ∈ promptFields, List.lookup lk.2 comp = Option.none →
      ContainsStr (competitorBlock comp) (lk.1 ++ ": N/A") := by
    intro lk hmem habs
    have hg : dictGet comp lk.2 = "N/A" := by simp [dictGet, habs]
    fin_cases hmem <;> simp only at hg ⊢
    · rw [show ("Competitor" ++ ": N/A" : String) = "Competitor: " ++ "N/A" from rfl]
      simp only [competitorBlock, hg, String.append_assoc]
      apply contains_append_left
      exact containsStr_at _ _ _
    · rw [show ("Program Summary" ++ ": N/A" : String) = "Program Summary: " ++ "N/A" from rfl]
      simp only [competitorBlock, hg, String.append_assoc]
      apply contains_append_left
      apply contains_append_left
      apply contains_append_left
      apply contains_append_left
      exact containsStr_at _ _ _
    · rw [show ("Market Position" ++ ": N/A" : String) = "Market Position: " ++ "N/A" from rfl]
      simp only [competitorBlock, hg, String.append_assoc]
      apply contains_append_left
      apply contains_append_left
      apply contains_append_left
      apply contains_append_left
      apply contains_append_left
      apply contains_append_left
      apply contains_append_left
      exact containsStr_at _ _ _
    · rw [show ("Rewards & Benefits" ++ ": N/A" : String) = "Rewards & Benefits: " ++ "N/A" from rfl]
      simp only [competitorBlock, hg, String.append_assoc]
      apply contains_append_left
      apply contains_append_left
      apply contains_append_left
      apply contains_append_left
      apply contains_append_left
      apply contains_append_left
      apply contains_append_left
      apply contains_append_left
      apply contains_append_left
      apply contains_append_left
      exact containsStr_at _ _ _
    · rw [show ("User Feedback" ++ ": N/A" : String) = "User Feedback: " ++ "N/A" from rfl]
      simp only [competitorBlock, hg, String.append_assoc]
      apply contains_append_left
      apply contains_append_left
      apply contains_append_left
      apply contains_append_left
      apply contains_append_left
      apply contains_append_left
      apply contains_append_left
      apply contains_append_left
      apply contains_append_left
      apply contains_append_left
      apply contains_append_left
      apply contains_append_left
      apply contains_append_left
      exact containsStr_at _ _ _
    · rw [show ("Strengths" ++ ": N/A" : String) = "Strengths: " ++ "N/A" from rfl]
      simp only [competitorBlock, hg, String.append_assoc]
      apply contains_append_left
      apply contains_append_left
      apply contains_append_left
      apply contains_append_left
      apply contains_append_left
      apply contains_append_left
      apply contains_append_left
      apply contains_append_left
      apply contains_append_left
      apply contains_append_left
      apply contains_append_left
      apply contains_append_left
      apply contains_append_left
      apply contains_append_left
      apply contains_append_left
      apply contains_append_left
      exact containsStr_at _ _ _
    · rw [show ("Weaknesses" ++ ": N/A" : String) = "Weaknesses: " ++ "N/A" from rfl]
      simp only [competitorBlock, hg, String.append_assoc]
      apply contains_append_left
      apply contains_append_left
      apply contains_append_left
      apply contains_append_left
      apply contains_append_left
      apply contains_append_left
      apply contains_append_left
      apply contains_append_left
      apply contains_append_left
      apply contains_append_left
      apply contains_append_left
      apply contains_append_left
      apply contains_append_left
      apply contains_append_left
      apply contains_append_left
      apply contains_append_left
      apply contains_append_left
      apply contains_append_left
      apply contains_append_left
      exact containsStr_at _ _ _
    · rw [show ("Opportunities" ++ ": N/A" : String) = "Opportunities: " ++ "N/A" from rfl]
      simp only [competitorBlock, hg, String.append_assoc]
      apply contains_append_left
      apply contains_append_left
      apply contains_append_left
      apply contains_append_left
      apply contains_append_left
      apply contains_append_left
      apply contains_append_left
      apply contains_append_left
      apply contains_append_left
      apply contains_append_left
      apply contains_append_left
      apply contains_append_left
      apply contains_append_left
      apply contains_append_left
      apply contains_append_left
      apply contains_append_left
      apply contains_append_left
      apply contains_append_left
      apply contains_append_left
      apply contains_append_left
      apply contains_append_left
      apply contains_append_left
      exact containsStr_at _ _ _
    · rw [show ("Threats" ++ ": N/A" : String) = "Threats: " ++ "N/A" from rfl]
      simp only [competitorBlock, hg, String.append_assoc]
      apply contains_append_left
      apply contains_append_left
      apply contains_append_left
      apply contains_append_left
      apply contains_append_left
      apply contains_append_left
      apply contains_append_left
      apply contains_append_left
      apply contains_append_left
      apply contains_append_left
      apply contains_append_left
      apply contains_append_left
      apply contains_append_left
      apply contains_append_left
      apply contains_append_left
      apply contains_append_left
      apply contains_append_left
      apply contains_append_left
      apply contains_append_left
      apply contains_append_left
      apply contains_append_left
      apply contains_append_left
      apply contains_append_left
      apply contains_append_left
      apply contains_append_left
      exact containsStr_at _ _ _
  refine ⟨?_, main⟩
  intro habs
  have h := main ("Strengths", "competitor_strength") (by simp [promptFields]) habs
  rwa [show (("Strengths", "competitor_strength").1 ++ ": N/A" : String) =
    "Strengths: N/A" from rfl] at h

theorem c6_witness :
    ContainsStr (competitorBlock ([] : Row)) "Strengths: N/A" :=
  (c6_missing_fields_render_na ([] : Row)).1 rfl

/-- C7: the overview concatenates one block per competitor in exactly the
order of the input sequence (a fold in list order, no sorting), each block
ends with the `---` delimiter line, and the data-access read itself yields
the rows as an order-preserving subsequence (a filter) of the table. -/
theorem c7_blocks_in_fetch_order (competitors_data : List Row) :
    build_overview competitors_data =
      String.join (competitors_data.map competitorBlock) ∧
    (∀ comp : Row, ∃ pre, competitorBlock comp = pre ++ "---\n        ") ∧
    ∀ (tbl : List (String × Row)) (brand : String),
      List.Sublist ((tbl.filter (fun r => r.1 == brand)).map (·.2))
        (tbl.map (·.2)) := by
  refine ⟨?_, ?_, ?_⟩
  · simp [build_overview, String.join, List.foldl_map]
  · intro comp
    refine ⟨"\n        " ++ "Competitor: " ++ dictGet comp "competitor_name" ++
      "\n        " ++ "Program Summary: " ++ dictGet comp "program_summary" ++
      "\n        " ++ "Market Position: " ++ dictGet comp "competitor_positioning" ++
      "\n        " ++ "Rewards & Benefits: " ++ dictGet comp "competitor_rewards_benefits" ++
      "\n        " ++ "User Feedback: " ++ dictGet comp "competitor_user_feedback" ++
      "\n        " ++ "Strengths: " ++ dictGet comp "competitor_strength" ++
      "\n        " ++ "Weaknesses: " ++ dictGet comp "competitor_weakness" ++
      "\n        " ++ "Opportunities: " ++ dictGet comp "competitor_opportunity" ++
      "\n        " ++ "Threats: " ++ dictGet comp "competitor_threats" ++
      "\n        ", ?_⟩
    rw [show ("---\n        " : String) = "---" ++ "\n        " from rfl]
    simp only [competitorBlock, String.append_assoc]
  · intro tbl brand
    exact List.Sublist.map (·.2) (List.filter_sublist tbl)

/-- C8: every non-404 failure collapses to the single 500 shape whose
detail is the raised exception's message: a failing competitors select, a
failing completion call, a failing summary select, and a failing summary
write all produce `HTTPException(500, str(e))` and leave the store
unchanged. -/
theorem c8_non404_failures_collapse_to_500 (env : Env) (brand : String) :
    (∀ m, env.selectCompetitorsFail = some m →
      create_analysis env brand =
        ({ status := 500, body := ResponseBody.detail m }, env.db)) ∧
    (∀ l m, env.selectCompetitorsFail = Option.none →
      (env.db.competitors.filter (fun r => r.1 == brand)).map (·.2) = l →
      l ≠ [] →
      env.llm (analysis_prompt brand l) = Except.error m →
      create_analysis env brand =
        ({ status := 500, body := ResponseBody.detail m }, env.db)) ∧
    (∀ l a m, env.selectCompetitorsFail = Option.none →
      (env.db.competitors.filter (fun r => r.1 == brand)).map (·.2) = l →
      l ≠ [] →
      env.llm (analysis_prompt brand l) = Except.ok a →
      env.selectSummaryFail = some m →
      create_analysis env brand =
        ({ status := 500, body := ResponseBody.detail m }, env.db)) ∧
    (∀ l a m, env.selectCompetitorsFail = Option.none →
      (env.db.competitors.filter (fun r => r.1 == brand)).map (·.2) = l →
      l ≠ [] →
      env.llm (analysis_prompt brand l) = Except.ok a →
      env.selectSummaryFail = Option.none →
      env.writeSummaryFail = some m →
      create_analysis env brand =
        ({ status := 500, body := ResponseBody.detail m }, env.db)) := by
  refine ⟨?_, ?_, ?_, ?_⟩
  · intro m h1
    simp [create_analysis, create_analysis_body, get_competitors_data, h1,
          Exn.message]
  · intro l m h1 h2 h3 h4
    exact create_analysis_llm_error env brand l m h1 h2 h3 h4
  all_goals
    intro l a m h1 h2 h3 h4
    have hfetch : get_competitors_data env brand = Except.ok l := by
      simp [get_competitors_data, h1, h2]
    have hemp : l.isEmpty = false := by
      cases l with
      | nil => exact absurd rfl h3
      | cons x xs => rfl
    have hana : analyze_competitive_landscape env brand l = Except.ok a := by
      simp [analyze_competitive_landscape, h4]
  · intro h5
    have hsave : save_landscape_analysis env brand a =
        Except.error (Exn.err m) := by
      simp [save_landscape_analysis, h5]
    simp [create_analysis, create_analysis_body, hfetch, hemp, hana, hsave,
          Exn.message]
  · intro h5 h6
    have hsave : save_landscape_analysis env brand a =
        Except.error (Exn.err m) := by
      simp [save_landscape_analysis, h5, h6]
    simp [create_analysis, create_analysis_body, hfetch, hemp, hana, hsave,
          Exn.message]

theorem c8_witness :
    create_analysis envC8 "Acme" =
      ({ status := 500, body := ResponseBody.detail "connection refused" },
       envC8.db) :=
  (c8_non404_failures_collapse_to_500 envC8 "Acme").1 "connection refused" rfl

/-- C9: a field key present with value `None` renders as the Python string
`"None"` on its labeled line — the `"N/A"` placeholder is substituted only
when the key is absent, never for a present value. -/
theorem c9_present_none_renders_none (comp : Row) :
    (List.lookup "competitor_strength" comp = some PyVal.none →
      ContainsStr (competitorBlock comp) "Strengths: None") ∧
    ∀ key v, List.lookup key comp = some v → dictGet comp key = pyStr v := by
  constructor
  · intro h
    have hg : dictGet comp "competitor_strength" = "None" := by
      simp [dictGet, h, pyStr]
    rw [show ("Strengths: None" : String) = "Strengths: " ++ "None" from rfl]
    simp only [competitorBlock, hg, String.append_assoc]
    apply contains_append_left
    apply contains_append_left
    apply contains_append_left
    apply contains_append_left
    apply contains_append_left
    apply contains_append_left
    apply contains_append_left
    apply contains_append_left
    apply contains_append_left
    apply contains_append_left
    apply contains_append_left
    apply contains_append_left
    apply contains_append_left
    apply contains_append_left
    apply contains_append_left
    apply contains_append_left
    exact containsStr_at _ _ _
  · intro key v h
    simp [dictGet, h]

theorem c9_witness :
    ContainsStr (competitorBlock [("competitor_strength", PyVal.none)])
      "Strengths: None" :=
  (c9_present_none_renders_none [("competitor_strength", PyVal.none)]).1 rfl

/-- C10: on the update path, the store write touches only the two text
columns of the rows matching the brand: each row keeps its `id` and
`brand_name`, every row not matching the brand is entirely unchanged, and
no row is added or removed. -/
theorem c10_update_writes_only_text_fields (env : Env) (brand : String)
    (analysis : CompetitiveLandscape)
    (h5 : env.selectSummaryFail = Option.none)
    (h6 : env.writeSummaryFail = Option.none)
    (hne : env.db.summaries.filter (fun r => r.brand_name == brand) ≠ []) :
    ∃ st row, save_landscape_analysis env brand analysis =
        Except.ok (st, row) ∧
      st.competitors = env.db.competitors ∧
      st.nextId = env.db.nextId ∧
      st.summaries.length = env.db.summaries.length ∧
      List.Forall₂ (fun old new =>
        new.id = old.id ∧ new.brand_name = old.brand_name ∧
        (old.brand_name ≠ brand → new = old))
        env.db.summaries st.summaries := by
  rcases hfil : env.db.summaries.filter (fun r => r.brand_name == brand) with
    _ | ⟨r0, rest⟩
  · exact absurd hfil hne
  · refine ⟨_, _, save_update env brand analysis h5 h6 r0 rest hfil, rfl, rfl,
      ?_, ?_⟩
    · show (updatedSummaries env.db.summaries brand analysis).length =
        env.db.summaries.length
      simp [updatedSummaries]
    · show List.Forall₂ _ env.db.summaries
        (env.db.summaries.map (fun r =>
          if r.brand_name == brand then
            { r with competitive_summary := analysis.competitive_summary,
                     gaps_opportunities := analysis.gaps_opportunities }
          else r))
      rw [List.forall₂_map_right_iff, List.forall₂_same]
      intro r _
      by_cases hb : r.brand_name = brand
      · simp [hb]
      · simp [hb]

theorem c10_witness :
    ∃ st row, save_landscape_analysis envC4 "Acme"
        { competitive_summary := "new summary",
          gaps_opportunities := "new gaps" } = Except.ok (st, row) ∧
      st.competitors = envC4.db.competitors ∧
      st.nextId = envC4.db.nextId ∧
      st.summaries.length = envC4.db.summaries.length ∧
      List.Forall₂ (fun old new =>
        new.id = old.id ∧ new.brand_name = old.brand_name ∧
        (old.brand_name ≠ "Acme" → new = old))
        envC4.db.summaries st.summaries :=
  c10_update_writes_only_text_fields envC4 "Acme"
    { competitive_summary := "new summary", gaps_opportunities := "new gaps" }
    rfl rfl (by decide)
